import Mathlib

/-!
Shallow embedding of the `recording-angel-websocket` core
(`app/services/session_manager.py`, `app/services/assemblyai.py`,
`app/services/ai_providers.py`, `app/services/translation_service_v2.py`,
`app/routers/websocket.py`) and proofs about it.

Python dictionaries are embedded as insertion-ordered association lists
(`List (String × V)`) whose update replaces in place, exactly as a `dict`
with unique keys does; `del` is embedded as a filter (the source only
deletes keys it just checked for membership).  Python `set` objects used
for per-session dedup are embedded as duplicate-free lists, with the
hash-dependent enumeration order that the source's cap truncation relies
on supplied as an explicit function parameter.  Real time is embedded as `ℚ` seconds; Python float division and
comparison in the similarity computations is embedded as exact `ℚ`
arithmetic.
-/

/-- `m[k]` lookup of a Python dict: the value of the first (unique) entry. -/
def dget {V : Type} (m : List (String × V)) (k : String) : Option V :=
  (m.find? (fun p => p.1 == k)).map (·.2)

/-- `k in m` for a Python dict. -/
def dmem {V : Type} (m : List (String × V)) (k : String) : Bool :=
  (dget m k).isSome

/-- `m[k] = v` for a Python dict: replace in place, or append a new entry. -/
def dset {V : Type} (m : List (String × V)) (k : String) (v : V) :
    List (String × V) :=
  match m with
  | [] => [(k, v)]
  | p :: rest => if p.1 == k then (k, v) :: rest else p :: dset rest k v

/-- `del m[k]` for a Python dict (the source deletes only present keys). -/
def ddel {V : Type} (m : List (String × V)) (k : String) : List (String × V) :=
  m.filter (fun p => p.1 != k)

theorem dget_dset_self {V : Type} (m : List (String × V)) (k : String) (v : V) :
    dget (dset m k v) k = some v := by
  induction m with
  | nil => simp [dget, dset, List.find?]
  | cons p rest ih =>
    by_cases h : p.1 = k
    · simp [dset, dget, List.find?, h]
    · have hb : (p.1 == k) = false := by simp [h]
      simp only [dset, hb, if_false]
      simpa [dget, List.find?, hb] using ih

theorem dget_dset_ne {V : Type} (m : List (String × V)) (k k' : String) (v : V)
    (h : k' ≠ k) : dget (dset m k v) k' = dget m k' := by
  induction m with
  | nil =>
    have hk : (k == k') = false := by simp [Ne.symm h]
    simp [dget, dset, List.find?, hk]
  | cons p rest ih =>
    by_cases hp : p.1 = k
    · have hb : (p.1 == k) = true := by simp [hp]
      have hk' : (k == k') = false := by simp [Ne.symm h]
      have hp' : (p.1 == k') = false := by simp [hp, Ne.symm h]
      simp [dset, dget, List.find?, hb, hk', hp']
    · have hb : (p.1 == k) = false := by simp [hp]
      by_cases hq : p.1 = k'
      · have hq' : (p.1 == k') = true := by simp [hq]
        simp [dset, dget, List.find?, hb, hq']
      · have hq' : (p.1 == k') = false := by simp [hq]
        simp only [dset, hb, if_false]
        simpa [dget, List.find?, hq'] using ih

theorem dget_ddel_self {V : Type} (m : List (String × V)) (k : String) :
    dget (ddel m k) k = none := by
  induction m with
  | nil => simp [dget, ddel]
  | cons p rest ih =>
    by_cases h : p.1 = k
    · have hb : (p.1 != k) = false := by simp [h]
      simpa [ddel, List.filter_cons, hb] using ih
    · have hb : (p.1 != k) = true := by simp [h]
      have hb' : (p.1 == k) = false := by simp [h]
      simp only [ddel, List.filter_cons, hb, if_true]
      simp [dget, List.find?, hb', ddel] at ih ⊢

/-! ## Text utilities from `app/services/assemblyai.py`

All string primitives are defined over the underlying character list
(`String.data`) so that every definition evaluates by kernel reduction. -/

/-- Python `str.lower()` of a single character, for the alphabets the
service handles (ASCII plus the Spanish accented letters of its word
lists). -/
def pyLowerChar (c : Char) : Char :=
  if c = 'Á' then 'á' else if c = 'É' then 'é' else if c = 'Í' then 'í'
  else if c = 'Ó' then 'ó' else if c = 'Ú' then 'ú' else if c = 'Ñ' then 'ñ'
  else if c = 'Ü' then 'ü' else c.toLower

/-- Python `str.lower()`. -/
def pyLower (s : String) : String := String.mk (s.data.map pyLowerChar)

/-- Python `str.strip()`: drop leading and trailing whitespace. -/
def pyStrip (s : String) : String :=
  String.mk (((s.data.dropWhile Char.isWhitespace).reverse.dropWhile
    Char.isWhitespace).reverse)

/-- Splitter of Python `str.split()` (no argument): cut at whitespace runs,
dropping empty pieces.  `acc` holds the reversed current word. -/
def splitWsAux : List Char → List Char → List (List Char)
  | [], acc => if acc.isEmpty then [] else [acc.reverse]
  | c :: cs, acc =>
    if c.isWhitespace then
      if acc.isEmpty then splitWsAux cs [] else acc.reverse :: splitWsAux cs []
    else splitWsAux cs (c :: acc)

/-- Python `str.split()` (no argument). -/
def pySplit (s : String) : List String := (splitWsAux s.data []).map String.mk

/-- Python `str.endswith(p)`. -/
def strEndsWith (s p : String) : Bool := p.data.isSuffixOf s.data

/-- `" ".join(ws)`. -/
def joinSpace : List String → String
  | [] => ""
  | [w] => w
  | w :: ws => w ++ " " ++ joinSpace ws

/-- `_is_text_complete_enough` (assemblyai.py lines 30–57), transliterated. -/
def isTextCompleteEnough (text : String) : Bool :=
  if pyStrip text = "" then false
  else
    let t := pyStrip text
    if t.length < 5 then false
    else if [".", "!", "?", ":"].any (fun p => strEndsWith t p) then true
    else
      let religious_endings :=
        ["amén", " amén", "jesús", "cristo", "espíritu", "santo", "padre"]
      let tLower := pyLower t
      if religious_endings.any (fun e => strEndsWith tLower e) then true
      else
        let word_count := (pySplit t).length
        if word_count ≥ 3 ∧ t.length ≥ 15 then true
        else false

/-- The regex-`\w` test of `_normalize_text`: word characters are
alphanumerics, the underscore, and the accented letters of the service's
vocabulary. -/
def isWordChar (c : Char) : Bool :=
  c.isAlphanum || c = '_' ||
    ['á', 'é', 'í', 'ó', 'ú', 'ñ', 'ü', 'Á', 'É', 'Í', 'Ó', 'Ú', 'Ñ', 'Ü'].contains c

/-- The filler-word list of `_normalize_text` (assemblyai.py lines 101–106). -/
def fillerWords : List String :=
  ["oh", "um", "ah", "eh", "er", "uh", "hmm", "mm", "wait", "espera",
   "obtener", "recibiendo", "viendo", "traduccion", "traduction", "ingles",
   "inglés", "english", "spanish", "español", "al", "la", "el", "los", "las",
   "un", "una", "de", "del", "y", "o", "pero", "porque", "que", "como",
   "cuando", "donde"]

/-- `_normalize_text` (assemblyai.py lines 89–115): lowercase, collapse
whitespace, drop punctuation, drop filler words and tokens of length ≤ 2. -/
def normalizeText (text : String) : String :=
  if text = "" then ""
  else
    let t := pyLower text
    let t := joinSpace (pySplit t)
    let t := String.mk (t.data.filter (fun c => isWordChar c || c.isWhitespace))
    let words := pySplit t
    let filtered := words.filter (fun w => ¬ fillerWords.contains w ∧ w.length > 2)
    joinSpace filtered

/-- `_calculate_similarity` (assemblyai.py lines 60–86): Jaccard similarity
over normalized token sets, as an exact rational. -/
def calculateSimilarity (text1 text2 : String) : ℚ :=
  if text1 = text2 then 1
  else
    let n1 := normalizeText text1
    let n2 := normalizeText text2
    if n1 = n2 then 1
    else
      let words1 := (pySplit n1).toFinset
      let words2 := (pySplit n2).toFinset
      if words1 = ∅ ∨ words2 = ∅ then 0
      else
        let inter := (words1 ∩ words2).card
        let union := (words1 ∪ words2).card
        if union = 0 then 0 else (inter : ℚ) / (union : ℚ)

/-! ## Session registry from `app/services/session_manager.py`

Connections and timer tasks are identified by opaque numeric ids; a
session's connection set is an insertion-ordered duplicate-free list. -/

/-- The metadata dict created by `add_connection` and mutated by
`update_session_metadata`; `target_language` is present only once set. -/
structure Metadata where
  created_at : String
  paragraph_counter : Nat
  target_language : Option String
deriving DecidableEq

/-- The mutable state of the `SessionManager` singleton. -/
structure SMState where
  active_sessions : List (String × List Nat)
  session_metadata : List (String × Metadata)
  session_text_buffers : List (String × String)
  session_buffer_timers : List (String × Nat)
  translation_buffers : List (String × String)
  translation_timers : List (String × Nat)
deriving DecidableEq

/-- The empty registry (`SessionManager.__init__`). -/
def SMState.init : SMState :=
  { active_sessions := [], session_metadata := [], session_text_buffers := [],
    session_buffer_timers := [], translation_buffers := [],
    translation_timers := [] }

/-- `add_connection` (session_manager.py lines 28–40); `now` stands for
`now_utc().isoformat()`. -/
def addConnection (st : SMState) (session_id : String) (ws : Nat)
    (now : String) : SMState :=
  let st :=
    if dmem st.active_sessions session_id then st
    else
      { st with
        active_sessions := dset st.active_sessions session_id [],
        session_metadata := dset st.session_metadata session_id
          ({ created_at := now, paragraph_counter := 0,
             target_language := none } : Metadata),
        session_text_buffers := dset st.session_text_buffers session_id "" }
  let conns := (dget st.active_sessions session_id).getD []
  let conns := if conns.contains ws then conns else conns ++ [ws]
  { st with active_sessions := dset st.active_sessions session_id conns }

/-- `remove_connection` (session_manager.py lines 42–67).  Cancelling a
timer only removes its entry here; timer ids are opaque. -/
def removeConnection (st : SMState) (session_id : String) (ws : Nat) :
    SMState :=
  match dget st.active_sessions session_id with
  | none => st
  | some conns =>
    let conns := conns.filter (fun c => c ≠ ws)
    if conns.length = 0 then
      { active_sessions := ddel st.active_sessions session_id,
        session_metadata := ddel st.session_metadata session_id,
        session_text_buffers := ddel st.session_text_buffers session_id,
        session_buffer_timers := ddel st.session_buffer_timers session_id,
        translation_buffers := ddel st.translation_buffers session_id,
        translation_timers := ddel st.translation_timers session_id }
    else
      { st with active_sessions := dset st.active_sessions session_id conns }

/-- `get_session_metadata` (lines 92–94): `{}` for an absent session is
embedded as `none`. -/
def getSessionMetadata (st : SMState) (session_id : String) : Option Metadata :=
  dget st.session_metadata session_id

/-- `update_session_metadata` (lines 96–99) specialised to the only update
the source performs, `{"target_language": language}`. -/
def updateSessionMetadataTarget (st : SMState) (session_id : String)
    (language : String) : SMState :=
  match dget st.session_metadata session_id with
  | none => st
  | some m =>
    let m' : Metadata := { m with target_language := some language }
    { st with session_metadata := dset st.session_metadata session_id m' }

/-- `get_text_buffer` (lines 101–103). -/
def getTextBuffer (st : SMState) (session_id : String) : String :=
  (dget st.session_text_buffers session_id).getD ""

/-- `add_to_text_buffer` (lines 105–113). -/
def addToTextBuffer (st : SMState) (session_id : String) (text : String) :
    SMState :=
  let bufs :=
    if dmem st.session_text_buffers session_id then st.session_text_buffers
    else dset st.session_text_buffers session_id ""
  let cur := (dget bufs session_id).getD ""
  let cur := if cur ≠ "" then cur ++ " " else cur
  { st with session_text_buffers := dset bufs session_id (cur ++ text) }

/-- `clear_text_buffer` (lines 115–119): returns the drained text and the
new state.  Note the write-back happens whether or not the session has an
entry. -/
def clearTextBuffer (st : SMState) (session_id : String) : String × SMState :=
  let text := (dget st.session_text_buffers session_id).getD ""
  (text, { st with
    session_text_buffers := dset st.session_text_buffers session_id "" })

/-- `get_target_language` (lines 134–137); `default_target` stands for
`config.TRANSLATION_DEFAULT_TARGET`. -/
def getTargetLanguage (st : SMState) (session_id : String)
    (default_target : String) : String :=
  match getSessionMetadata st session_id with
  | none => default_target
  | some m => m.target_language.getD default_target

/-- `set_target_language` (lines 139–141). -/
def setTargetLanguage (st : SMState) (session_id : String)
    (language : String) : SMState :=
  updateSessionMetadataTarget st session_id language

/-- True when no map of the registry holds an entry for `session_id`. -/
def SMState.noStateFor (st : SMState) (session_id : String) : Bool :=
  !dmem st.active_sessions session_id &&
  !dmem st.session_metadata session_id &&
  !dmem st.session_text_buffers session_id &&
  !dmem st.session_buffer_timers session_id &&
  !dmem st.translation_buffers session_id &&
  !dmem st.translation_timers session_id

/-! ## Transcription bridge from `app/services/assemblyai.py` and
`app/routers/websocket.py`

`active_connections` is the module-level `Dict[str, WebSocket]`; client
connections are opaque numeric ids.  The one send the source performs per
message (`active_connections[session_id].send_json(...)` guarded by
`session_id in active_connections`) is `deliverToSession`. -/

/-- The delivery the bridge performs for live transcripts, translation
updates and errors: the single connection stored for the key, or nothing. -/
def deliverToSession {M : Type} (conns : List (String × Nat)) (session_id : String)
    (msg : M) : List (Nat × M) :=
  match dget conns session_id with
  | some c => [(c, msg)]
  | none => []

/-- `active_connections[session_id] = websocket`
(websocket.py line 44). -/
def storeConnection (conns : List (String × Nat)) (session_id : String)
    (ws : Nat) : List (String × Nat) :=
  dset conns session_id ws

/-- The fields of a `Turn` event that `handle_assemblyai_message` reads,
each `Option` to model `dict.get` defaults and the `in data` test. -/
structure TurnData where
  transcript : Option String
  end_of_turn : Option Bool
  turn_is_formatted : Option Bool
deriving DecidableEq

/-- The `data` payload of the `live_transcript` message
(assemblyai.py lines 198–209); `timestamp` is the `now` argument. -/
structure LiveMsgData where
  text : String
  text_translated : Option String
  target_language : Option String
  translation_status : String
  timestamp : String
  session_id : String
  is_final : Bool
deriving DecidableEq

/-- Result of the `Turn` branch of `handle_assemblyai_message`
(lines 185–227): the sends performed and whether a translation task was
spawned. -/
structure TurnResult where
  sends : List (Nat × LiveMsgData)
  live : Option LiveMsgData
  spawned_translation : Bool
deriving DecidableEq

/-- The `Turn` branch of `handle_assemblyai_message`
(assemblyai.py lines 185–227).  `translation_enabled` stands for
`config.TRANSLATION_ENABLED` and `now` for `now_utc().isoformat()`. -/
def handleTurn (translation_enabled : Bool) (conns : List (String × Nat))
    (session_id : String) (d : TurnData) (now : String) : TurnResult :=
  let transcript := d.transcript.getD ""
  let end_of_turn := d.end_of_turn.getD false
  if transcript = "" ∨ pyStrip transcript = "" then
    { sends := [], live := none, spawned_translation := false }
  else
    let transcript_text := pyStrip transcript
    let live : LiveMsgData :=
      { text := transcript_text,
        text_translated := none,
        target_language := if translation_enabled then some "es" else none,
        translation_status :=
          if translation_enabled ∧ ¬ end_of_turn then "translating"
          else if ¬ translation_enabled then "disabled" else "ready",
        timestamp := now,
        session_id := session_id,
        is_final := end_of_turn &&
          (d.turn_is_formatted.getD false || d.turn_is_formatted.isSome) }
    let sends := deliverToSession conns session_id live
    let spawned := translation_enabled && ¬ (transcript_text = "") && end_of_turn &&
      isTextCompleteEnough transcript_text
    { sends := sends, live := some live, spawned_translation := spawned }

/-- The `isFinal` field the spec ascribes to the live message:
`end_of_turn AND turn_is_formatted`. -/
def specIsFinal (d : TurnData) : Bool :=
  d.end_of_turn.getD false && d.turn_is_formatted.getD false

/-! ### `process_audio_chunk` (assemblyai.py lines 375–405) -/

/-- What one `process_audio_chunk` call does, observably. -/
inductive AudioOutcome
  | droppedSmall
  | droppedNoSession
  | sent
  | sendFailed (error_sends : List (Nat × String))
deriving DecidableEq

/-- `process_audio_chunk`: `assembly` is `assembly_sessions` (provider
handles as opaque ids), `send_ok` tells whether the provider-side
`websocket.send(audio_data)` succeeds, `audio_len` is `len(audio_data)`. -/
def processAudioChunk (assembly : List (String × Nat))
    (conns : List (String × Nat)) (session_id : String) (audio_len : Nat)
    (send_ok : Bool) : AudioOutcome :=
  if audio_len < 100 then .droppedSmall
  else
    match dget assembly session_id with
    | none => .droppedNoSession
    | some _ =>
      if send_ok then .sent
      else .sendFailed (deliverToSession conns session_id "Failed to process audio")

/-- Whether an outcome surfaces an error to anyone: an exception to the
caller is never raised, so only client-visible error sends count. -/
def audioErrorSurfaced : AudioOutcome → Bool
  | .sendFailed (_ :: _) => true
  | _ => false

/-! ### `translate_and_broadcast_async` (assemblyai.py lines 277–372)

`translated_texts` (a `Dict[str, set]`) and `last_translation_times`
(`Dict[str, float]`) are the module-level dedup caches.  The provider call
`translation_service_v2.translate_text` is abstracted by its result
(`provider_result`), time by a `ℚ` value of `time.time()`. -/

/-- The dedup caches touched by `translate_and_broadcast_async`. -/
structure TransCaches where
  translated_texts : List (String × List String)
  last_translation_times : List (String × ℚ)
deriving DecidableEq

/-- The `data` payload of a `translation_update` message
(lines 333–344). -/
structure TransMsgData where
  original_text : String
  text_translated : Option String
  target_language : String
  translation_status : String
  session_id : String
  is_final : Bool
deriving DecidableEq

/-- Observable outcome of one `translate_and_broadcast_async` call. -/
structure TransOutcome where
  provider_called : Bool
  broadcast : Option TransMsgData
  sends : List (Nat × TransMsgData)
deriving DecidableEq

/-- The time-based throttling test of `translate_and_broadcast_async`
(lines 283–287): a translation completed less than 1 second ago. -/
def tabThrottled (caches : TransCaches) (session_id : String) (now : ℚ) :
    Bool :=
  match dget caches.last_translation_times session_id with
  | some last => decide (now - last < 1)
  | none => false

/-- `translate_and_broadcast_async` (lines 277–372).  `now` is
`time.time()`; `provider_result` stands for the awaited value of
`translation_service_v2.translate_text` (`none` = falsy result).
`set_order` models the enumeration `list(translated_texts[session_id])`
of the hash-ordered Python set at line 317, whose order the source leaves
unspecified: any permutation of the elements is a possible behaviour, and
the cap keeps the last 50 entries of that enumeration. -/
def translateAndBroadcast (set_order : List String → List String)
    (caches : TransCaches)
    (conns : List (String × Nat)) (session_id : String)
    (transcript_text : String) (target_language : String) (now : ℚ)
    (provider_result : Option String) : TransCaches × TransOutcome :=
  -- Time-based throttling
  if tabThrottled caches session_id now then
    (caches, { provider_called := false, broadcast := none, sends := [] })
  else
    let clean_text := normalizeText transcript_text
    -- Initialize session's translated texts set if not exists
    let sess_set : List String :=
      (dget caches.translated_texts session_id).getD []
    let caches :=
      if dmem caches.translated_texts session_id then caches
      else { caches with
        translated_texts := dset caches.translated_texts session_id [] }
    -- Exact duplicate check
    if sess_set.contains clean_text then
      (caches, { provider_called := false, broadcast := none, sends := [] })
    -- Similarity check against every existing entry
    else if sess_set.any (fun e => calculateSimilarity clean_text e > (6 : ℚ)/10) then
      (caches, { provider_called := false, broadcast := none, sends := [] })
    else
      -- Record time and fingerprint before the provider call
      let caches := { caches with
        last_translation_times := dset caches.last_translation_times session_id now }
      let new_set := sess_set ++ [clean_text]
      -- Cap the per-session set past 100 entries:
      -- `set(list(translated_texts[session_id])[-50:])` keeps the last 50
      -- of the set's enumeration, which may drop the entry just added
      let new_set :=
        if new_set.length > 100 then
          (set_order new_set).drop ((set_order new_set).length - 50)
        else new_set
      let caches := { caches with
        translated_texts := dset caches.translated_texts session_id new_set }
      let translation_status :=
        if provider_result.isSome then "success" else "failed"
      let msg : TransMsgData :=
        { original_text := transcript_text,
          text_translated := provider_result,
          target_language := target_language,
          translation_status := translation_status,
          session_id := session_id,
          is_final := true }
      (caches,
        { provider_called := true, broadcast := some msg,
          sends := deliverToSession conns session_id msg })

/-! ## Paragraph refiner from `app/services/ai_providers.py`

HTTP responses are embedded by the fields the source reads; the deferred
retry task `_refine_after_delay(…, delay)` is embedded by its firing time
`now + max 0 delay` (it awaits `asyncio.sleep(max(0.0, delay))`). -/

/-- The slice of an HTTP response `_refine_with_http` / `_refine_with_lemur`
read: status code, the optional `Retry-After` header, and the refined text
the body would yield on a `2xx`/`3xx` status. -/
structure HttpResp where
  status : Nat
  retry_after : Option String
  body_text : Option String
deriving DecidableEq

/-- Numeric value of a digit run. -/
def digitsVal (l : List Char) : Nat :=
  l.foldl (fun acc c => 10 * acc + (c.toNat - '0'.toNat)) 0

/-- Python `float(s)` on the simple non-negative decimal strings a
`Retry-After` header carries: digits with an optional fractional part. -/
def parseFloatQ (s : String) : Option ℚ :=
  if s = "" then none
  else
    match s.data.span (fun c => c.isDigit) with
    | (intPart, rest) =>
      if intPart.isEmpty then none
      else
        let intVal : ℚ := (digitsVal intPart : ℚ)
        match rest with
        | [] => some intVal
        | '.' :: frac =>
          if frac.all (fun c => c.isDigit) ∧ ¬ frac.isEmpty then
            some (intVal + (digitsVal frac : ℚ) / ((10 : ℚ) ^ frac.length))
          else none
        | _ => none

/-- Outcome of one backend call: the refined text handed back to
`refine_and_broadcast_paragraph` and the backoff of the deferred retry the
backend scheduled, if any. -/
structure RefineStep where
  result : Option String
  retry_backoff : Option ℚ
deriving DecidableEq

/-- The response handling of `_refine_with_http`
(ai_providers.py lines 137–153): a 429 schedules
`_refine_after_delay(…, backoff)` with the advertised backoff if it
parses, else `config.PARAGRAPHIZER_RETRY_BACKOFF_SECONDS`
(`default_backoff`). -/
def refineWithHttp (default_backoff : ℚ) (resp : HttpResp) : RefineStep :=
  if resp.status = 429 then
    let backoff :=
      match resp.retry_after with
      | none => default_backoff
      | some s => (parseFloatQ s).getD default_backoff
    { result := none, retry_backoff := some backoff }
  else if resp.status < 400 then
    { result := resp.body_text, retry_backoff := none }
  else
    { result := none, retry_backoff := none }

/-- The response handling of `_refine_with_lemur`
(ai_providers.py lines 172–188): on a 429 it computes the backoff and
logs, but schedules no retry (`# Note: This would need paragraph_data
parameter to retry properly`). -/
def refineWithLemur (_default_backoff : ℚ) (resp : HttpResp) : RefineStep :=
  if resp.status = 429 then
    { result := none, retry_backoff := none }
  else if resp.status < 400 then
    { result := resp.body_text, retry_backoff := none }
  else
    { result := none, retry_backoff := none }

/-- What `refine_and_broadcast_paragraph` does with a backend step at time
`now` (lines 59–72 and `_refine_after_delay` lines 194–200): broadcast
`paragraph_refined` now iff the result is non-empty after stripping, and
fire each scheduled retry at `now + max 0 backoff`. -/
structure RefineOutcome where
  broadcast_now : Bool
  retry_fire_times : List ℚ
deriving DecidableEq

/-- Python `max(0.0, d)`. -/
def qMax0 (d : ℚ) : ℚ := if 0 ≤ d then d else 0

/-- Lift a backend `RefineStep` performed at time `now` to its observable
refinement outcome. -/
def refineOutcome (now : ℚ) (step : RefineStep) : RefineOutcome :=
  { broadcast_now :=
      match step.result with
      | some r => pyStrip r ≠ ""
      | none => false,
    retry_fire_times :=
      match step.retry_backoff with
      | some b => [now + qMax0 b]
      | none => [] }

/-! ## Translation service from `app/services/translation_service_v2.py`

`_translation_cache` is the process-wide `Dict[str, str]`; the configured
provider's streamed chunks are abstracted by the list of values it yields. -/

/-- Whether `needle` occurs as a contiguous run inside the other list. -/
def isInfixChars (needle : List Char) : List Char → Bool
  | [] => needle.isEmpty
  | c :: cs => needle.isPrefixOf (c :: cs) || isInfixChars needle cs

/-- Python `sub in s` on strings. -/
def containsSubstr (s sub : String) : Bool := isInfixChars sub.data s.data

/-- `s[:-n]`: drop the last `n` characters. -/
def strDropRight (s : String) (n : Nat) : String :=
  String.mk (s.data.take (s.data.length - n))

/-- The cache-key suffix `f"_{source_lang}_{target_lang}"`. -/
def langSuffix (source_lang target_lang : String) : String :=
  "_" ++ source_lang ++ "_" ++ target_lang

/-- `_texts_are_similar` (translation_service_v2.py lines 299–319):
word-set Jaccard similarity at or above `threshold`, with equal strings
always similar. -/
def textsAreSimilar (text1 text2 : String) (threshold : ℚ) : Bool :=
  if text1 = text2 then true
  else
    let words1 := (pySplit text1).toFinset
    let words2 := (pySplit text2).toFinset
    if words1 = ∅ ∨ words2 = ∅ then false
    else
      let union := (words1 ∪ words2).card
      if union = 0 then false
      else decide ((((words1 ∩ words2).card : ℚ) / (union : ℚ)) ≥ threshold)

/-- The error-phrase substrings of `_is_valid_translation`
(lines 327–330). -/
def errorPatterns : List String :=
  ["error", "failed", "unable", "sorry", "i cannot", "i'm sorry",
   "no translation", "translation failed", "api error"]

/-- `_is_valid_translation` (lines 321–340). -/
def isValidTranslation (translation : String) : Bool :=
  if translation = "" ∨ pyStrip translation = "" then false
  else
    let translation_lower := pyStrip (pyLower translation)
    if errorPatterns.any (fun p => containsSubstr translation_lower p) then false
    else if (pyStrip translation).length < 3 then false
    else true

/-- Result of one `translate_text` call: the returned value, whether the
provider stream was consumed, and the cache afterwards. -/
structure TranslateTextResult where
  result : Option String
  provider_called : Bool
  cache : List (String × String)
deriving DecidableEq

/-- `translate_text` (translation_service_v2.py lines 229–273).  The
provider call `translate_stream` is abstracted by `provider_chunks`, the
chunks it would yield. -/
def translateText (cache : List (String × String)) (text : String)
    (source_lang target_lang : String) (provider_chunks : List String) :
    TranslateTextResult :=
  let clean_text := pyStrip text
  if clean_text = "" then
    { result := none, provider_called := false, cache := cache }
  else
    let suffix := langSuffix source_lang target_lang
    let cache_key := pyLower clean_text ++ suffix
    -- Exact normalized-key lookup
    match dget cache cache_key with
    | some cached_result =>
      { result := some cached_result, provider_called := false, cache := cache }
    | none =>
      -- Fuzzy match against existing keys for the same language pair
      match cache.find? (fun p =>
          strEndsWith p.1 suffix &&
          textsAreSimilar (pyLower clean_text)
            (strDropRight p.1 suffix.length) ((9 : ℚ)/10)) with
      | some p =>
        { result := some p.2, provider_called := false, cache := cache }
      | none =>
        -- Not in cache: consume the provider stream
        let result :=
          if provider_chunks.isEmpty then none
          else some (joinSpace provider_chunks)
        match result with
        | none => { result := none, provider_called := true, cache := cache }
        | some r =>
          if isValidTranslation r then
            let cache :=
              if cache.length ≥ 1000 then
                cache.drop (max 1 (cache.length / 10))
              else cache
            { result := some r, provider_called := true,
              cache := dset cache cache_key r }
          else
            { result := some r, provider_called := true, cache := cache }

/-! # Claims -/

/-! ## C8: completeness heuristic -/

/-- The completeness heuristic as the spec words it: reject empty or
shorter-than-5-character text; else accept iff the text ends with terminal
punctuation, or ends with a fixed domain-specific closing word, or has
word count ≥ 3 and length ≥ 15. -/
def specCompleteEnough (text : String) : Bool :=
  let t := pyStrip text
  if t = "" ∨ t.length < 5 then false
  else
    [".", "!", "?", ":"].any (fun p => strEndsWith t p) ||
    (["amén", " amén", "jesús", "cristo", "espíritu", "santo", "padre"].any
      (fun e => strEndsWith (pyLower t) e)) ||
    (decide (3 ≤ (pySplit t).length) && decide (15 ≤ t.length))

/-- C8: `_is_text_complete_enough` rejects empty or shorter-than-5-character
text, accepts exactly the texts ending in terminal punctuation or in a
fixed domain-specific closing word or with word count ≥ 3 and length ≥ 15,
and in particular rejects `"Hello"` and `"um wait"` while accepting
`"This is a complete sentence."` and `"y el espíritu santo"`. -/
theorem completeness_heuristic_matches_spec :
    (∀ text : String, isTextCompleteEnough text = specCompleteEnough text) ∧
    isTextCompleteEnough "Hello" = false ∧
    isTextCompleteEnough "um wait" = false ∧
    isTextCompleteEnough "This is a complete sentence." = true ∧
    isTextCompleteEnough "y el espíritu santo" = true := by
  refine ⟨fun text => ?_, by decide, by decide, by decide, by decide⟩
  simp only [isTextCompleteEnough, specCompleteEnough]
  split_ifs <;> simp_all <;> omega

/-! ## C9: text buffer append/drain -/

/-- C9: starting from an empty (or absent) text buffer, appending `"a"`
then `"b"` and draining returns exactly `"a b"` with a single space
inserted; the drain resets the buffer, and a second drain returns `""`. -/
theorem text_buffer_append_drain (st : SMState) (sid : String)
    (h : dget st.session_text_buffers sid = none ∨
         dget st.session_text_buffers sid = some "") :
    (clearTextBuffer (addToTextBuffer (addToTextBuffer st sid "a") sid "b")
        sid).1 = "a b" ∧
    getTextBuffer (clearTextBuffer
        (addToTextBuffer (addToTextBuffer st sid "a") sid "b") sid).2 sid
      = "" ∧
    (clearTextBuffer (clearTextBuffer
        (addToTextBuffer (addToTextBuffer st sid "a") sid "b") sid).2
        sid).1 = "" := by
  rcases h with h | h <;>
    simp [addToTextBuffer, clearTextBuffer, getTextBuffer, dmem, h,
      dget_dset_self]

/-- Witness for C9 at the empty registry. -/
theorem text_buffer_append_drain_witness :
    (dget SMState.init.session_text_buffers "s" = none ∨
     dget SMState.init.session_text_buffers "s" = some "") ∧
    (clearTextBuffer (addToTextBuffer (addToTextBuffer SMState.init "s" "a")
        "s" "b") "s").1 = "a b" :=
  ⟨Or.inl rfl, (text_buffer_append_drain SMState.init "s" (Or.inl rfl)).1⟩

/-! ## C10: setting the target language of an unknown session -/

/-- C10: for a session key absent from the registry, `set_target_language`
leaves the whole registry state unchanged, and `get_target_language` then
returns the configured default target. -/
theorem set_target_language_missing_session (st : SMState)
    (sid lang default_target : String)
    (h : dget st.session_metadata sid = none) :
    setTargetLanguage st sid lang = st ∧
    getTargetLanguage (setTargetLanguage st sid lang) sid default_target
      = default_target := by
  have h2 : setTargetLanguage st sid lang = st := by
    simp [setTargetLanguage, updateSessionMetadataTarget, h]
  refine ⟨h2, ?_⟩
  rw [h2]
  simp [getTargetLanguage, getSessionMetadata, h]

/-- Witness for C10 at the empty registry. -/
theorem set_target_language_missing_session_witness :
    dget SMState.init.session_metadata "s" = none ∧
    setTargetLanguage SMState.init "s" "fr" = SMState.init :=
  ⟨rfl, (set_target_language_missing_session SMState.init "s" "fr" "es" rfl).1⟩

/-! ## C3: session cleanup -/

/-- C3 counterexample: after the last connection leaves, every map is
clean, yet a single `clear_text_buffer` call — with no intervening join —
recreates a buffer entry keyed by the dead session, contradicting the
claim that no registry operation between the cleanup and the next join can
recreate any entry for that key. -/
theorem session_cleanup_recreation_counterexample :
    SMState.noStateFor
      (removeConnection (addConnection SMState.init "s" 0 "t0") "s" 0) "s"
      = true ∧
    dmem ((clearTextBuffer
      (removeConnection (addConnection SMState.init "s" 0 "t0") "s" 0)
      "s").2).session_text_buffers "s" = true := by
  constructor <;> decide

/-- C3 amended: removing the last connection of a session deletes all
session state for that key (connection set, metadata, both buffers, both
timers) — but buffer operations performed after the cleanup can recreate
entries keyed by the dead session, as the counterexample shows. -/
theorem remove_last_connection_cleans_all_state (st : SMState)
    (sid : String) (ws : Nat) (conns : List Nat)
    (h : dget st.active_sessions sid = some conns)
    (hempty : conns.filter (fun c => c ≠ ws) = []) :
    SMState.noStateFor (removeConnection st sid ws) sid = true := by
  simp only [removeConnection, h, hempty, List.length_nil]
  simp [SMState.noStateFor, dmem, dget_ddel_self]

/-- Witness for the amended C3 at a one-connection session. -/
theorem remove_last_connection_cleans_all_state_witness :
    dget (addConnection SMState.init "s" 7 "t0").active_sessions "s"
      = some [7] ∧
    SMState.noStateFor
      (removeConnection (addConnection SMState.init "s" 7 "t0") "s" 7) "s"
      = true :=
  ⟨by decide,
   remove_last_connection_cleans_all_state _ "s" 7 [7] (by decide)
     (by decide)⟩

/-! ## C4: audio for a session with no provider handle -/

/-- C4 counterexample: a 100-byte chunk for a session with no provider
handle is silently dropped — `process_audio_chunk` returns without raising
and without sending an error message, contradicting the claim that the
error is surfaced to the caller. -/
theorem audio_no_handle_counterexample :
    processAudioChunk [] [("s", 0)] "s" 100 true
      = AudioOutcome.droppedNoSession ∧
    audioErrorSurfaced (processAudioChunk [] [("s", 0)] "s" 100 true)
      = false := by
  constructor <;> decide

/-- C4 amended: for every chunk of at least 100 bytes and session with no
provider handle, `process_audio_chunk` logs and silently drops the chunk:
it raises nothing and sends no error message to the client. -/
theorem audio_no_handle_silently_dropped (assembly conns : List (String × Nat))
    (sid : String) (audio_len : Nat) (send_ok : Bool)
    (hlen : 100 ≤ audio_len) (h : dget assembly sid = none) :
    processAudioChunk assembly conns sid audio_len send_ok
      = AudioOutcome.droppedNoSession ∧
    audioErrorSurfaced (processAudioChunk assembly conns sid audio_len send_ok)
      = false := by
  have hlt : ¬ (audio_len < 100) := by omega
  constructor <;> simp [processAudioChunk, hlt, h, audioErrorSurfaced]

/-- Witness for the amended C4. -/
theorem audio_no_handle_silently_dropped_witness :
    (100 ≤ 150 ∧ dget ([] : List (String × Nat)) "s" = none) ∧
    processAudioChunk [] [] "s" 150 true = AudioOutcome.droppedNoSession :=
  ⟨⟨by decide, rfl⟩,
   (audio_no_handle_silently_dropped [] [] "s" 150 true (by decide) rfl).1⟩

/-! ## C1: the `isFinal` field of the live transcript -/

/-- C1 counterexample: a `Turn` event that carries
`turn_is_formatted = false` with `end_of_turn = true` is broadcast with
`is_final = true`, while `end_of_turn AND turn_is_formatted` is `false`:
the source computes `end_of_turn and (turn_is_formatted or
"turn_is_formatted" in data)`, so the carried flag's value is ignored. -/
theorem live_is_final_counterexample :
    (handleTurn true [("s", 0)] "s"
        ⟨some "Hello there.", some true, some false⟩ "t").live.map
        (·.is_final) = some true ∧
    specIsFinal ⟨some "Hello there.", some true, some false⟩ = false := by
  constructor <;> decide

/-- C1 amended: for every inbound `Turn` event whose transcript is
non-empty after trimming and which carries the `turn_is_formatted` key,
the live transcript message is broadcast with
`is_final = end_of_turn` — the carried flag's value is ignored, because the
source or-joins the flag with the key-presence test. -/
theorem live_is_final_eq_end_of_turn (translation_enabled : Bool)
    (conns : List (String × Nat)) (sid : String) (d : TurnData)
    (now : String)
    (htx : pyStrip (d.transcript.getD "") ≠ "")
    (hfmt : d.turn_is_formatted.isSome = true) :
    (handleTurn translation_enabled conns sid d now).live.map (·.is_final)
      = some (d.end_of_turn.getD false) := by
  have hne : ¬ (d.transcript.getD "" = "" ∨
      pyStrip (d.transcript.getD "") = "") := by
    rintro (h0 | h0)
    · exact htx (by rw [h0]; rfl)
    · exact htx h0
  simp [handleTurn, hne, hfmt]

/-- Witness for the amended C1. -/
theorem live_is_final_eq_end_of_turn_witness :
    (pyStrip "Hi all." ≠ "" ∧
      (some false : Option Bool).isSome = true) ∧
    (handleTurn true [("s", 0)] "s" ⟨some "Hi all.", some true, some false⟩
        "t").live.map (·.is_final) = some true :=
  ⟨⟨by decide, rfl⟩,
   live_is_final_eq_end_of_turn true [("s", 0)] "s"
     ⟨some "Hi all.", some true, some false⟩ "t" (by decide) rfl⟩

/-! ## C2: one delivery target per session key -/

/-- C2: storing a second client connection under the same session key
replaces the first; lookup then yields the most recent connection, every
delivery the bridge performs reaches at most one connection, and the live
transcript sends of `handle_assemblyai_message` for that key target only
the most recently stored connection. -/
theorem single_connection_per_session_key :
    ∀ (m : List (String × Nat)) (k : String) (c₁ c₂ : Nat) (msg : String)
      (enabled : Bool) (d : TurnData) (now : String),
      dget (storeConnection (storeConnection m k c₁) k c₂) k = some c₂ ∧
      (deliverToSession (storeConnection (storeConnection m k c₁) k c₂) k
          msg).map (·.1) = [c₂] ∧
      (∀ (conns : List (String × Nat)) (sid : String),
        (deliverToSession conns sid msg).length ≤ 1) ∧
      ((handleTurn enabled (storeConnection (storeConnection m k c₁) k c₂)
          k d now).sends.map (·.1)).all (fun c => c = c₂) = true := by
  intro m k c₁ c₂ msg enabled d now
  have hs : dget (storeConnection (storeConnection m k c₁) k c₂) k
      = some c₂ := by
    simp [storeConnection, dget_dset_self]
  refine ⟨hs, by simp [deliverToSession, hs], ?_, ?_⟩
  · intro conns sid
    cases hh : dget conns sid <;> simp [deliverToSession, hh]
  · by_cases htr : (d.transcript.getD "" = "" ∨
        pyStrip (d.transcript.getD "") = "")
    · simp [handleTurn, htr]
    · simp [handleTurn, htr, deliverToSession, hs]

/-! ## C6: 429 handling of the refinement backends -/

/-- C6: on a 429 with `Retry-After: 3`, the HTTP refinement backend
broadcasts nothing now and schedules exactly one deferred retry firing at
`now + 3`; with the header absent or unparseable it uses the configured
default backoff.  The fallback (LeMUR) backend, however, schedules no
retry at all on the same response — its 429 branch returns `None` after
logging, as its own source comment concedes.  This theorem records both
behaviours; the fallback side contradicts the claim. -/
theorem refine_429_retry_and_fallback_gap :
    (refineOutcome 0 (refineWithHttp 10 ⟨429, some "3", some "x"⟩)).broadcast_now
      = false ∧
    (refineOutcome 0 (refineWithHttp 10 ⟨429, some "3", some "x"⟩)).retry_fire_times
      = [3] ∧
    (0 : ℚ) + 3 ≥ 3 ∧
    (refineOutcome 0 (refineWithHttp 10 ⟨429, none, some "x"⟩)).retry_fire_times
      = [10] ∧
    (refineOutcome 0 (refineWithHttp 10 ⟨429, some "soon", some "x"⟩)).retry_fire_times
      = [10] ∧
    (refineOutcome 0 (refineWithLemur 10 ⟨429, some "3", some "x"⟩)).broadcast_now
      = false ∧
    (refineOutcome 0 (refineWithLemur 10 ⟨429, some "3", some "x"⟩)).retry_fire_times
      = [] := by
  have h3 : parseFloatQ "3" = some 3 := by decide
  have hsoon : parseFloatQ "soon" = none := by decide
  refine ⟨by decide, ?_, by norm_num, ?_, ?_, by decide, by decide⟩
  · simp [refineOutcome, refineWithHttp, h3, qMax0]
  · simp [refineOutcome, refineWithHttp, qMax0]
  · simp [refineOutcome, refineWithHttp, hsoon, qMax0]

/-! ## C7: fuzzy translation-cache hits -/

/-- C7: when some existing translation-cache key for the same
(source language, target language) pair is similar (Jaccard ≥ 0.9 on the
lowercased stripped text, per `_texts_are_similar`) to the requested text,
`translate_text` returns a result stored in the cache, consumes no
provider stream, and leaves the cache unchanged. -/
theorem translate_text_cached_no_provider_call (cache : List (String × String))
    (text source_lang target_lang : String) (chunks : List String)
    (hne : pyStrip text ≠ "")
    (hsim : ∃ p ∈ cache,
      strEndsWith p.1 (langSuffix source_lang target_lang) = true ∧
      textsAreSimilar (pyLower (pyStrip text))
        (strDropRight p.1 (langSuffix source_lang target_lang).length)
        ((9 : ℚ)/10) = true) :
    (translateText cache text source_lang target_lang chunks).provider_called
      = false ∧
    (∃ p ∈ cache,
      (translateText cache text source_lang target_lang chunks).result
        = some p.2) ∧
    (translateText cache text source_lang target_lang chunks).cache = cache := by
  rcases hdg : dget cache (pyLower (pyStrip text) ++ langSuffix source_lang target_lang) with _ | v
  · -- exact miss: the fuzzy scan must hit
    obtain ⟨p, hp, hends, hsim'⟩ := hsim
    have hfind : (cache.find? (fun p =>
        strEndsWith p.1 (langSuffix source_lang target_lang) &&
        textsAreSimilar (pyLower (pyStrip text))
          (strDropRight p.1 (langSuffix source_lang target_lang).length)
          ((9 : ℚ)/10))).isSome := by
      rw [List.find?_isSome]
      exact ⟨p, hp, by simp [hends, hsim']⟩
    rcases hf : cache.find? (fun p =>
        strEndsWith p.1 (langSuffix source_lang target_lang) &&
        textsAreSimilar (pyLower (pyStrip text))
          (strDropRight p.1 (langSuffix source_lang target_lang).length)
          ((9 : ℚ)/10)) with _ | q
    · rw [hf] at hfind; simp at hfind
    · have hqmem : q ∈ cache := List.mem_of_find?_eq_some hf
      refine ⟨?_, ⟨q, hqmem, ?_⟩, ?_⟩ <;>
        simp [translateText, hne, hdg, hf]
  · -- exact hit
    have : ∃ p, cache.find? (fun p => p.1 ==
        (pyLower (pyStrip text) ++ langSuffix source_lang target_lang))
        = some p ∧ p.2 = v := by
      unfold dget at hdg
      rcases hh : cache.find? (fun p => p.1 ==
          (pyLower (pyStrip text) ++ langSuffix source_lang target_lang)) with _ | q
      · rw [hh] at hdg; simp at hdg
      · rw [hh] at hdg; simp at hdg; exact ⟨q, hh, hdg⟩
    obtain ⟨p, hfp, hpv⟩ := this
    have hpmem : p ∈ cache := List.mem_of_find?_eq_some hfp
    refine ⟨?_, ⟨p, hpmem, ?_⟩, ?_⟩ <;>
      simp [translateText, hne, hdg, hpv]

/-- Witness for C7: an identical cached text for the `auto → es` pair is
served from the cache without a provider call. -/
theorem translate_text_cached_no_provider_call_witness :
    (pyStrip "hola mundo" ≠ "" ∧
      strEndsWith "hola mundo_auto_es" (langSuffix "auto" "es") = true ∧
      textsAreSimilar (pyLower (pyStrip "hola mundo"))
        (strDropRight "hola mundo_auto_es" (langSuffix "auto" "es").length)
        ((9 : ℚ)/10) = true) ∧
    (translateText [("hola mundo_auto_es", "hello world")] "hola mundo"
        "auto" "es" []).provider_called = false :=
  ⟨⟨by decide, by decide, by decide⟩,
   (translate_text_cached_no_provider_call
      [("hola mundo_auto_es", "hello world")] "hola mundo" "auto" "es" []
      (by decide)
      ⟨("hola mundo_auto_es", "hello world"), by decide,
        by decide, by decide⟩).1⟩

/-! ## C5: translator dedup and throttle -/

/-- A dedup set of 100 two-character fingerprints: each normalizes to the
empty string, so every similarity against them is 0. -/
def ceDedup0 : List String :=
  ["aa", "ab", "ac", "ad", "ae", "af", "ag", "ah", "ai", "aj",
   "ak", "al", "am", "an", "ao", "ap", "aq", "ar", "as", "at",
   "au", "av", "aw", "ax", "ay", "az", "ba", "bb", "bc", "bd",
   "be", "bf", "bg", "bh", "bi", "bj", "bk", "bl", "bm", "bn",
   "bo", "bp", "bq", "br", "bs", "bt", "bu", "bv", "bw", "bx",
   "by", "bz", "ca", "cb", "cc", "cd", "ce", "cf", "cg", "ch",
   "ci", "cj", "ck", "cl", "cm", "cn", "co", "cp", "cq", "cr",
   "cs", "ct", "cu", "cv", "cw", "cx", "cy", "cz", "da", "db",
   "dc", "dd", "de", "df", "dg", "dh", "di", "dj", "dk", "dl",
   "dm", "dn", "do", "dp", "dq", "dr", "ds", "dt", "du", "dv"]

/-- A transcript whose normalized form is itself. -/
def ceText : String := "sunrise mountain valley river"

/-- Session state at the dedup cap: 100 fingerprints, no recorded
translation time. -/
def ceCaches0 : TransCaches := ⟨[("s", ceDedup0)], []⟩

theorem mem_drop_append_single (l : List String) (c : String) (n : Nat)
    (h : n ≤ l.length) : c ∈ (l ++ [c]).drop n := by
  rw [List.drop_append_of_le_length h]
  exact List.mem_append_right _ (by simp)

theorem mem_cap_small (l : List String) (c : String)
    (set_order : List String → List String) (h : l.length ≤ 99) :
    c ∈ (if (l ++ [c]).length > 100 then
          (set_order (l ++ [c])).drop ((set_order (l ++ [c])).length - 50)
        else l ++ [c]) := by
  have hlen : ¬ ((l ++ [c]).length > 100) := by
    simp only [List.length_append, List.length_singleton]
    omega
  rw [if_neg hlen]
  exact List.mem_append_right _ (by simp)

/-- A throttled call drops the request without touching the caches. -/
theorem tab_throttle_drop (set_order : List String → List String)
    (caches : TransCaches) (conns : List (String × Nat))
    (sid t tgt : String) (now : ℚ) (r : Option String)
    (h : tabThrottled caches sid now = true) :
    translateAndBroadcast set_order caches conns sid t tgt now r
      = (caches, ⟨false, none, []⟩) := by
  simp [translateAndBroadcast, h]

/-- An unthrottled call whose normalized text is already in the session's
dedup set, or is similar above 0.6 to an entry of it, is dropped: no
provider call, no broadcast, no send. -/
theorem tab_dup_drop (set_order : List String → List String)
    (caches : TransCaches) (conns : List (String × Nat))
    (sid t tgt : String) (now : ℚ) (r : Option String)
    (hthr : tabThrottled caches sid now = false)
    (hdrop : normalizeText t ∈ (dget caches.translated_texts sid).getD [] ∨
      ∃ x ∈ (dget caches.translated_texts sid).getD [],
        (6 : ℚ)/10 < calculateSimilarity (normalizeText t) x) :
    (translateAndBroadcast set_order caches conns sid t tgt now r).2
      = ⟨false, none, []⟩ := by
  rcases hdrop with hc | ha
  · simp [translateAndBroadcast, hthr, hc]
  · by_cases hc : normalizeText t ∈ (dget caches.translated_texts sid).getD []
    · simp [translateAndBroadcast, hthr, hc]
    · simp [translateAndBroadcast, hthr, hc, ha]

/-- A call that reached the provider recorded its timestamp beforehand,
whatever the set enumeration order did to the dedup set. -/
theorem tab_called_last (set_order : List String → List String)
    (caches : TransCaches) (conns : List (String × Nat))
    (sid t tgt : String) (now : ℚ) (r : Option String)
    (h : (translateAndBroadcast set_order caches conns sid t tgt now
        r).2.provider_called = true) :
    dget (translateAndBroadcast set_order caches conns sid t tgt now
        r).1.last_translation_times sid = some now := by
  by_cases hthr : tabThrottled caches sid now
  · simp [translateAndBroadcast, hthr] at h
  · by_cases hc : normalizeText t ∈ (dget caches.translated_texts sid).getD []
    · simp [translateAndBroadcast, hthr, hc] at h
    · by_cases ha : ∃ x ∈ (dget caches.translated_texts sid).getD [],
          (6 : ℚ)/10 < calculateSimilarity (normalizeText t) x
      · simp [translateAndBroadcast, hthr, hc, ha] at h
      · simp [translateAndBroadcast, hthr, hc, ha, dget_dset_self]

/-- A call that reached the provider from a session whose dedup set held
at most 99 entries (so the 100-entry cap did not truncate) left its
normalized text in the set. -/
theorem tab_called_mem_small (set_order : List String → List String)
    (caches : TransCaches) (conns : List (String × Nat))
    (sid t tgt : String) (now : ℚ) (r : Option String)
    (h : (translateAndBroadcast set_order caches conns sid t tgt now
        r).2.provider_called = true)
    (hsmall : ((dget caches.translated_texts sid).getD []).length ≤ 99) :
    ∃ s, dget (translateAndBroadcast set_order caches conns sid t tgt now
        r).1.translated_texts sid = some s ∧ normalizeText t ∈ s := by
  by_cases hthr : tabThrottled caches sid now
  · simp [translateAndBroadcast, hthr] at h
  · by_cases hc : normalizeText t ∈ (dget caches.translated_texts sid).getD []
    · simp [translateAndBroadcast, hthr, hc] at h
    · by_cases ha : ∃ x ∈ (dget caches.translated_texts sid).getD [],
          (6 : ℚ)/10 < calculateSimilarity (normalizeText t) x
      · simp [translateAndBroadcast, hthr, hc, ha] at h
      · rcases hdg2 : dget (translateAndBroadcast set_order caches conns sid
            t tgt now r).1.translated_texts sid with _ | s2
        · exfalso
          revert hdg2
          simp [translateAndBroadcast, hthr, hc, ha, dget_dset_self]
        · refine ⟨s2, rfl, ?_⟩
          revert hdg2
          simp [translateAndBroadcast, hthr, hc, ha, dget_dset_self]
          rintro rfl
          simpa using
            mem_cap_small ((dget caches.translated_texts sid).getD [])
              (normalizeText t) set_order hsmall

/-- An unthrottled call that passes both dedup checks reaches the
provider and broadcasts a `translation_update`. -/
theorem tab_success_called (set_order : List String → List String)
    (caches : TransCaches) (conns : List (String × Nat))
    (sid t tgt : String) (now : ℚ) (r : Option String)
    (hthr : tabThrottled caches sid now = false)
    (hc : normalizeText t ∉ (dget caches.translated_texts sid).getD [])
    (ha : ¬ ∃ x ∈ (dget caches.translated_texts sid).getD [],
      (6 : ℚ)/10 < calculateSimilarity (normalizeText t) x) :
    (translateAndBroadcast set_order caches conns sid t tgt now
        r).2.provider_called = true ∧
    (translateAndBroadcast set_order caches conns sid t tgt now
        r).2.broadcast.isSome = true := by
  constructor <;> simp [translateAndBroadcast, hthr, hc, ha]

/-- The session state the first counterexample call leaves behind: the
recorded timestamp, and the last 50 entries of the reversed enumeration of
the 101-element dedup set — the just-added fingerprint is evicted. -/
def ceCaches1 : TransCaches :=
  ⟨[("s", (List.reverse (ceDedup0 ++ [normalizeText ceText])).drop
      ((List.reverse (ceDedup0 ++ [normalizeText ceText])).length - 50))],
   [("s", 0)]⟩

/-- C5 counterexample: with the session's dedup set at the 100-entry cap,
the truncation `set(list(s)[-50:])` keeps the last 50 entries of the
set's unspecified enumeration — here `List.reverse`, a permutation of the
elements and hence a possible hash order — which evicts the fingerprint
the first call just added.  The same text submitted again one second
later (equal normalized forms, outside the 1-second throttle) then passes
every dedup check, reaches the provider, and broadcasts: two provider
calls and two `translation_update` broadcasts for the pair, refuting the
claim. -/
theorem translator_dedup_eviction_counterexample :
    (translateAndBroadcast List.reverse ceCaches0 [] "s" ceText "es" 0
        (some "hola")).2.provider_called = true ∧
    (translateAndBroadcast List.reverse
        (translateAndBroadcast List.reverse ceCaches0 [] "s" ceText "es" 0
          (some "hola")).1
        [] "s" ceText "es" 1 (some "hola")).2.provider_called = true ∧
    (translateAndBroadcast List.reverse
        (translateAndBroadcast List.reverse ceCaches0 [] "s" ceText "es" 0
          (some "hola")).1
        [] "s" ceText "es" 1 (some "hola")).2.broadcast.isSome = true ∧
    (List.reverse (ceDedup0 ++ [normalizeText ceText])).Perm
      (ceDedup0 ++ [normalizeText ceText]) := by
  have hthr1 : tabThrottled ceCaches0 "s" 0 = false := by decide
  have hc1 : normalizeText ceText ∉
      (dget ceCaches0.translated_texts "s").getD [] := by decide
  have hall1 : ∀ x ∈ (dget ceCaches0.translated_texts "s").getD [],
      calculateSimilarity (normalizeText ceText) x = 0 := by decide
  have ha1 : ¬ ∃ x ∈ (dget ceCaches0.translated_texts "s").getD [],
      (6 : ℚ)/10 < calculateSimilarity (normalizeText ceText) x := by
    rintro ⟨x, hx, hlt⟩
    rw [hall1 x hx] at hlt
    norm_num at hlt
  have hp1 := tab_success_called List.reverse ceCaches0 [] "s" ceText "es" 0
    (some "hola") hthr1 hc1 ha1
  have hfst : (translateAndBroadcast List.reverse ceCaches0 [] "s" ceText
      "es" 0 (some "hola")).1 = ceCaches1 := by
    simp [translateAndBroadcast, hthr1, hc1, ha1]
    decide
  have hd1 : dget ceCaches1.last_translation_times "s" = some 0 := by decide
  have hthr2 : tabThrottled ceCaches1 "s" 1 = false := by
    simp only [tabThrottled, hd1]
    simp only [decide_eq_false_iff_not]
    norm_num
  have hc2 : normalizeText ceText ∉
      (dget ceCaches1.translated_texts "s").getD [] := by decide
  have hall2 : ∀ x ∈ (dget ceCaches1.translated_texts "s").getD [],
      calculateSimilarity (normalizeText ceText) x = 0 := by decide
  have ha2 : ¬ ∃ x ∈ (dget ceCaches1.translated_texts "s").getD [],
      (6 : ℚ)/10 < calculateSimilarity (normalizeText ceText) x := by
    rintro ⟨x, hx, hlt⟩
    rw [hall2 x hx] at hlt
    norm_num at hlt
  have hp2 := tab_success_called List.reverse ceCaches1 [] "s" ceText "es" 1
    (some "hola") hthr2 hc2 ha2
  rw [hfst]
  exact ⟨hp1.1, hp2.1, hp2.2, List.reverse_perm _⟩

/-- C5 amended: after a `translate_and_broadcast_async` call that reached
the provider, (a) a second call for the same session starting less than
one second after the first recorded its timestamp is always dropped — no
provider call, no broadcast, no send — and (b) if the session's dedup set
held at most 99 entries before the first call (so the 100-entry cap did
not truncate it), a second call whose normalized text equals the first's
or is similar to it above 0.6 is likewise dropped; so within the
100-entry window the pair performs at most one provider call and one
broadcast.  Past the cap, the source truncates the hash-ordered set
arbitrarily and may evict the just-added fingerprint, as the
counterexample shows. -/
theorem translator_dedup_throttle_drops_second
    (set_order : List String → List String) (caches : TransCaches)
    (conns₁ conns₂ : List (String × Nat)) (sid t₁ t₂ tgt₁ tgt₂ : String)
    (now₁ now₂ : ℚ) (r₁ r₂ : Option String)
    (hcalled : (translateAndBroadcast set_order caches conns₁ sid t₁ tgt₁
        now₁ r₁).2.provider_called = true) :
    (now₂ - now₁ < 1 →
      (translateAndBroadcast set_order
          (translateAndBroadcast set_order caches conns₁ sid t₁ tgt₁ now₁
            r₁).1 conns₂ sid t₂ tgt₂ now₂ r₂).2
        = ⟨false, none, []⟩) ∧
    (((dget caches.translated_texts sid).getD []).length ≤ 99 →
      (normalizeText t₂ = normalizeText t₁ ∨
       calculateSimilarity (normalizeText t₂) (normalizeText t₁)
         > (6 : ℚ)/10 ∨
       now₂ - now₁ < 1) →
      (translateAndBroadcast set_order
          (translateAndBroadcast set_order caches conns₁ sid t₁ tgt₁ now₁
            r₁).1 conns₂ sid t₂ tgt₂ now₂ r₂).2
        = ⟨false, none, []⟩) := by
  have hlast := tab_called_last set_order caches conns₁ sid t₁ tgt₁ now₁ r₁
    hcalled
  constructor
  · intro ht
    have hthr : tabThrottled
        (translateAndBroadcast set_order caches conns₁ sid t₁ tgt₁ now₁
          r₁).1 sid now₂ = true := by
      simp [tabThrottled, hlast, ht]
    rw [tab_throttle_drop set_order _ conns₂ sid t₂ tgt₂ now₂ r₂ hthr]
  · intro hsmall hdup
    obtain ⟨s, hs, hmem⟩ := tab_called_mem_small set_order caches conns₁ sid
      t₁ tgt₁ now₁ r₁ hcalled hsmall
    by_cases ht : now₂ - now₁ < 1
    · have hthr : tabThrottled
          (translateAndBroadcast set_order caches conns₁ sid t₁ tgt₁ now₁
            r₁).1 sid now₂ = true := by
        simp [tabThrottled, hlast, ht]
      rw [tab_throttle_drop set_order _ conns₂ sid t₂ tgt₂ now₂ r₂ hthr]
    · have hthr : tabThrottled
          (translateAndBroadcast set_order caches conns₁ sid t₁ tgt₁ now₁
            r₁).1 sid now₂ = false := by
        simp [tabThrottled, hlast, ht]
      rcases hdup with heq | hsim | htime
      · exact tab_dup_drop set_order _ conns₂ sid t₂ tgt₂ now₂ r₂ hthr
          (Or.inl (by rw [hs]; simpa [heq] using hmem))
      · exact tab_dup_drop set_order _ conns₂ sid t₂ tgt₂ now₂ r₂ hthr
          (Or.inr ⟨normalizeText t₁, by rw [hs]; exact hmem, hsim⟩)
      · exact absurd htime ht

/-- Witness for the amended C5: from an empty dedup cache, a second
request half a second after a successful first one is dropped. -/
theorem translator_dedup_throttle_drops_second_witness :
    (translateAndBroadcast id ⟨[], []⟩ [] "s" "good morning friends today"
        "es" 0 (some "hola")).2.provider_called = true ∧
    ((dget (⟨[], []⟩ : TransCaches).translated_texts "s").getD []).length
      ≤ 99 ∧
    ((1 : ℚ)/2 - 0 < 1) ∧
    (translateAndBroadcast id
        (translateAndBroadcast id ⟨[], []⟩ [] "s"
          "good morning friends today" "es" 0 (some "hola")).1
        [] "s" "another phrase" "es" ((1 : ℚ)/2) none).2
      = ⟨false, none, []⟩ :=
  ⟨by decide, by decide, by norm_num,
   (translator_dedup_throttle_drops_second id ⟨[], []⟩ [] [] "s"
      "good morning friends today" "another phrase" "es" "es" 0 ((1 : ℚ)/2)
      (some "hola") none (by decide)).2 (by decide)
     (Or.inr (Or.inr (by norm_num)))⟩
